/-
Verification of the PyProject template-to-command pipeline.

Shallow embedding of the core of the NCCA/PyProject repository:
the template model (src/Package.py, src/Extras.py, src/ProjectTemplate.py),
the template parser (src/main.py, src/NewVersion.py), the command generator
(src/CommandGenerator.py), the project manager execution loop
(src/ProjectManager.py), and the configuration loaders
(src/main.py, src/NewVersion.py, src/AppConfig.py).

Python values are modelled as follows: strings are Lean String, optional
values are Option, JSON values flowing through untyped dict slots are a small
Json inductive, exceptions are Except / explicit outcome types, and the
subprocess environment is an oracle function from command index and command
string to a result.
-/
import Mathlib

namespace PyProject

/-! ## Python value scaffolding -/

/-- Minimal JSON value type for the untyped slots of the configuration
document (the values stored under the "extras" mapping of a template body). -/
inductive Json where
  | null : Json
  | bool : Bool → Json
  | str : String → Json
  | arr : List Json → Json
  | obj : List (String × Json) → Json

/-- Python truthiness of a JSON value: None, False, empty string, empty list
and empty dict are falsy; everything else is truthy. -/
def Json.truthy : Json → Bool
  | .null => false
  | .bool b => b
  | .str s => !(s == "")
  | .arr xs => !xs.isEmpty
  | .obj kvs => !kvs.isEmpty

/-- The Python exceptions that the modelled code can raise. -/
inductive PyError where
  | nameError (missing : String) : PyError
  | fileNotFoundError (msg : String) : PyError
  | jsonDecodeError (msg : String) : PyError
  | typeError (msg : String) : PyError
  | indexError (msg : String) : PyError
deriving DecidableEq

/-! ## Package (src/Package.py) -/

/-- Package dataclass from src/Package.py: name, status (a string at every
call site in the repository), optional version. -/
structure Package where
  name : String
  status : String
  version : Option String := none
deriving DecidableEq

/-- Package.is_enabled (src/Package.py lines 21-24):
`self.status == PackageStatus.ENABLED.value`, i.e. status equals the raw
string "enabled". -/
def Package.is_enabled (p : Package) : Bool :=
  p.status == "enabled"

/-- Package.version_spec (src/Package.py lines 26-29):
`f"{self.name}{self.version}" if self.version else self.name`.
The guard is Python truthiness, so both None and the empty string fall back
to the bare name; otherwise name and version are concatenated with no
separator. -/
def Package.version_spec (p : Package) : String :=
  match p.version with
  | some v => if v == "" then p.name else p.name ++ v
  | none => p.name

/-- Python truthiness of an Optional[str]: None and "" are falsy. -/
def strOptTruthy : Option String → Bool
  | some v => !(v == "")
  | none => false

/-! ## Extras (src/Extras.py) -/

/-- ExtrasStatus enum from src/Extras.py lines 5-9. -/
inductive ExtrasStatus where
  | ENABLED : ExtrasStatus
  | DISABLED : ExtrasStatus
deriving DecidableEq

/-- Runtime value of the Extras.status field. The dataclass annotates it as
ExtrasStatus with default ExtrasStatus.DISABLED, but Python does not enforce
the annotation and src/main.py line 312 constructs Extras with the raw string
ExtrasStatus.ENABLED.value, so the field holds either an enum member or a
string. -/
inductive StatusValue where
  | enum (m : ExtrasStatus) : StatusValue
  | str (s : String) : StatusValue
deriving DecidableEq

/-- Extras dataclass from src/Extras.py lines 12-18: source path, destination
path, status defaulting to ExtrasStatus.DISABLED. -/
structure Extras where
  src : String
  dst : String
  status : StatusValue := .enum .DISABLED
deriving DecidableEq

/-- Extras.is_enabled (src/Extras.py lines 20-23):
`self.status == ExtrasStatus.ENABLED.value`. The right-hand side is the raw
string "enabled"; in Python an Enum member never compares equal to a string,
so the comparison is true only when the field holds the string "enabled". -/
def Extras.is_enabled (e : Extras) : Bool :=
  match e.status with
  | .str s => s == "enabled"
  | .enum _ => false

/-! ## CommandGenerator (src/CommandGenerator.py) -/

/-- The keys of the project_config dict consumed by the command generator,
as built by MainWindow._get_project_config (src/main.py lines 265-282). -/
structure ProjectConfig where
  project_path : String
  project_name : String
  python_version : String
  vcs_option : String
  no_readme : String
  no_workspace : String
  gen_type : String
  no_main : String := ""
deriving DecidableEq

/-- CommandGenerator class state (src/CommandGenerator.py lines 8-12). -/
structure CommandGenerator where
  uv_executable : String
deriving DecidableEq

/-- CommandGenerator.generate_init_command (src/CommandGenerator.py
lines 14-24): one f-string over the config keys, pieces separated by single
spaces. -/
def CommandGenerator.generate_init_command (g : CommandGenerator)
    (c : ProjectConfig) : String :=
  g.uv_executable ++ " init " ++ c.gen_type ++ " --python " ++ c.python_version
    ++ " --name " ++ c.project_name ++ " " ++ c.vcs_option ++ " "
    ++ c.no_readme ++ " " ++ c.no_workspace ++ " " ++ c.project_path

/-- CommandGenerator.generate_add_command (src/CommandGenerator.py
lines 26-30): `if package.version:` (truthiness) selects the quoted
name-plus-version form, else the bare name. -/
def CommandGenerator.generate_add_command (g : CommandGenerator)
    (p : Package) (project_path : String) : String :=
  if strOptTruthy p.version then
    g.uv_executable ++ " add \x27" ++ p.version_spec ++ "\x27 --project "
      ++ project_path
  else
    g.uv_executable ++ " add " ++ p.name ++ " --project " ++ project_path

/-- CommandGenerator.generate_extra_command (src/CommandGenerator.py
lines 32-34): `cp templates/{extra.src} {project_path}/{extra.dst}`. -/
def CommandGenerator.generate_extra_command (_g : CommandGenerator)
    (e : Extras) (project_path : String) : String :=
  "cp templates/" ++ e.src ++ " " ++ project_path ++ "/" ++ e.dst

/-- CommandGenerator.generate_all_commands (src/CommandGenerator.py
lines 36-60): start from the init command, then one for-loop appending an add
command per package passing the is_enabled guard, then one for-loop appending
a copy command per extras entry passing the is_enabled guard. The two Python
for-append loops are rendered as left folds. -/
def CommandGenerator.generate_all_commands (g : CommandGenerator)
    (project_config : ProjectConfig) (enabled_packages : List Package)
    (extras : List Extras) : List String :=
  let commands := [g.generate_init_command project_config]
  let commands := enabled_packages.foldl
    (fun acc package =>
      if package.is_enabled then
        acc ++ [g.generate_add_command package project_config.project_path]
      else acc)
    commands
  let commands := extras.foldl
    (fun acc extra =>
      if extra.is_enabled then
        acc ++ [g.generate_extra_command extra project_config.project_path]
      else acc)
    commands
  commands

/-- The add-command section of the generated list: one add command per
enabled package, in input order. -/
def addCommands (g : CommandGenerator) (c : ProjectConfig)
    (pkgs : List Package) : List String :=
  (pkgs.filter Package.is_enabled).map
    (fun p => g.generate_add_command p c.project_path)

/-- The copy-command section of the generated list: one copy command per
enabled extras entry, in input order. -/
def copyCommands (g : CommandGenerator) (c : ProjectConfig)
    (extras : List Extras) : List String :=
  (extras.filter Extras.is_enabled).map
    (fun e => g.generate_extra_command e c.project_path)

/-! ## ProjectManager execution loop (src/ProjectManager.py) -/

/-- Result of one `subprocess.run(cmd, shell=True, check=True,
capture_output=True, text=True)` invocation: either a zero exit with captured
stdout and stderr, or a CalledProcessError carrying the non-zero return code
and the captured streams. -/
inductive CmdResult where
  | success (stdout stderr : String) : CmdResult
  | failure (returncode : Int) (stdout stderr : String) : CmdResult
deriving DecidableEq

/-- Whether the invocation exited with status zero. -/
def CmdResult.isSuccess : CmdResult → Bool
  | .success _ _ => true
  | .failure _ _ _ => false

/-- The message logged and forwarded on a failing command
(src/ProjectManager.py line 37): `f"Error executing command: {e}"` where the
CalledProcessError renders as
`Command '<cmd>' returned non-zero exit status <code>.` for an ordinary
non-zero exit (process deaths by signal are not distinguished here). -/
def errorMessage (cmd : String) (returncode : Int) : String :=
  "Error executing command: Command \x27" ++ cmd
    ++ "\x27 returned non-zero exit status " ++ toString returncode ++ "."

/-- Callback calls made in the success branch (src/ProjectManager.py
lines 33-36): stdout unconditionally, stderr only when non-empty. -/
def successEntries (hasCb : Bool) (idx : Nat) (stdout stderr : String) :
    List (Nat × String) :=
  if hasCb then
    (idx, stdout) :: (if stderr == "" then [] else [(idx, stderr)])
  else []

/-- Callback calls made in the failure branch (src/ProjectManager.py
lines 39-43): the error message, then stdout and stderr when truthy. -/
def failureEntries (hasCb : Bool) (idx : Nat) (cmd : String)
    (returncode : Int) (stdout stderr : String) : List (Nat × String) :=
  if hasCb then
    (idx, errorMessage cmd returncode)
      :: ((if stdout == "" then [] else [(idx, stdout)])
          ++ (if stderr == "" then [] else [(idx, stderr)]))
  else []

/-- The "Executing: ..." callback call made before each command
(src/ProjectManager.py lines 28-29). The callback's Boolean return value is
discarded by the source (the call is a bare statement), which is why the
model records only the calls and never consults the callback function. -/
def announceEntries (hasCb : Bool) (idx : Nat) (cmd : String) :
    List (Nat × String) :=
  if hasCb then [(idx, "Executing: " ++ cmd)] else []

/-- Observable outcome of the create_project command loop: the returned
Boolean, the sequence of (index, message) progress-callback calls, and the
indices of the commands actually handed to subprocess.run. -/
structure RunResult where
  success : Bool
  trace : List (Nat × String)
  executed : List Nat
deriving DecidableEq

/-- The for-loop of ProjectManager.create_project (src/ProjectManager.py
lines 26-47) over the remaining commands, where `idx` is the enumerate
index of the first remaining command and `exec` is the environment oracle
giving each invocation's outcome. A failing command returns False at once;
the callback, when present, is invoked exactly as in the source and its
return value plays no role. -/
def createProjectLoop (exec : Nat → String → CmdResult)
    (cb : Option (Nat → String → Bool)) : Nat → List String → RunResult
  | _, [] => ⟨true, [], []⟩
  | idx, cmd :: rest =>
    let hasCb := cb.isSome
    match exec idx cmd with
    | .success out err =>
      let r := createProjectLoop exec cb (idx + 1) rest
      ⟨r.success,
        announceEntries hasCb idx cmd ++ successEntries hasCb idx out err ++ r.trace,
        idx :: r.executed⟩
    | .failure code out err =>
      ⟨false,
        announceEntries hasCb idx cmd ++ failureEntries hasCb idx cmd code out err,
        [idx]⟩

/-- The command loop of ProjectManager.create_project, started at enumerate
index 0 on the full command list. -/
def create_project_run (exec : Nat → String → CmdResult)
    (cb : Option (Nat → String → Bool)) (commands : List String) : RunResult :=
  createProjectLoop exec cb 0 commands

/-- Whether every command of the list, run at its enumerate index starting
from `idx`, exits with status zero in the environment `exec`. -/
def cmdsAllSucceed (exec : Nat → String → CmdResult) : Nat → List String → Bool
  | _, [] => true
  | idx, cmd :: rest =>
    (exec idx cmd).isSuccess && cmdsAllSucceed exec (idx + 1) rest

/-! ## Call arities (src/ProjectManager.py, src/CommandGenerator.py, src/main.py) -/

/-- Positional-parameter counts of a Python function: parameters without a
default value, and parameters with one. -/
structure PySignature where
  required : Nat
  optional : Nat
deriving DecidableEq

/-- A Python call with `given` positional arguments binds without a TypeError
exactly when it supplies every required parameter and no more than the
declared parameters. -/
def acceptsArgs (sig : PySignature) (given : Nat) : Bool :=
  sig.required ≤ given && given ≤ sig.required + sig.optional

/-- Signature of CommandGenerator.generate_all_commands
(src/CommandGenerator.py lines 36-42): project_config, enabled_packages,
extras — three required parameters, no defaults. -/
def generate_all_commands_sig : PySignature := ⟨3, 0⟩

/-- Signature of ProjectManager.create_project (src/ProjectManager.py
lines 20-22): project_config, enabled_packages required,
progress_callback=None optional. -/
def create_project_sig : PySignature := ⟨2, 1⟩

/-- Argument count of the call `self.command_generator.generate_all_commands(
project_config, enabled_packages)` inside create_project
(src/ProjectManager.py line 25). -/
def create_project_generate_call_argc : Nat := 2

/-- Argument count of the call `self.project_manager.create_project(
project_config, enabled_packages, extra_files, progress_callback)`
(src/main.py line 247). -/
def main_create_project_call_argc : Nat := 4

/-- Argument count of the dry-run call `self.command_generator.
generate_all_commands(project_config, enabled_packages, extra_files)`
(src/main.py line 358). -/
def main_dry_run_generate_call_argc : Nat := 3

/-! ## ProjectTemplate and the template parsers
(src/ProjectTemplate.py, src/main.py lines 154-209, src/NewVersion.py
lines 278-290) -/

/-- ProjectTemplate dataclass from src/ProjectTemplate.py lines 7-15. Its
declared fields are exactly name, packages, description, extras and
pyproject_extras (defaulting to None); there is no no_main field. -/
structure ProjectTemplate where
  name : String
  packages : List Package
  description : List String
  extras : List (String × Json)
  pyproject_extras : Option Json := none

/-- The field names of the ProjectTemplate dataclass
(src/ProjectTemplate.py lines 7-15). -/
def projectTemplate_fields : List String :=
  ["name", "packages", "description", "extras", "pyproject_extras"]

/-- The keyword arguments passed to ProjectTemplate by
MainWindow._parse_template_data (src/main.py lines 200-207). -/
def main_parse_ctor_kwargs : List String :=
  ["name", "packages", "description", "extras", "pyproject_extras", "no_main"]

/-- A Python call binding keyword arguments succeeds without a TypeError
exactly when every keyword names a declared parameter (for a dataclass, a
declared field). -/
def acceptsKwargs (fields kwargs : List String) : Bool :=
  kwargs.all fields.contains

/-- A raw template body, in the documented shape expected by both parsers
(docstring of _parse_template_data, src/main.py lines 162-174): a "packages"
list of [name, status, version?] string lists (data.get("packages", [])),
a "description" string list (data.get("description", [])), an "extras"
mapping (data.get("extras", \x7b\x7d)), and an optional top-level
"pyproject_extras" value which only the NewVersion parser reads
(src/NewVersion.py line 288). Absent keys and their defaults coincide, so
the defaults stand in for absence. -/
structure RawTemplateBody where
  packages : List (List String) := []
  description : List String := []
  extras : List (String × Json) := []
  pyproject_extras : Option Json := none

/-- Construction `Package(pkg[0], pkg[1], pkg[2] if len(pkg) > 2 else None)`
(src/main.py line 191, src/NewVersion.py line 282): indexing past the end of
the entry raises an IndexError. -/
def mkPackage : List String → Except PyError Package
  | n :: s :: v :: _ => .ok ⟨n, s, some v⟩
  | [n, s] => .ok ⟨n, s, none⟩
  | _ => .error (.indexError "list index out of range")

/-- MainWindow._parse_template_data (src/main.py lines 154-209): for each
template entry, parse the packages, read the extras mapping, read
pyproject_extras from inside extras guarded by the dict truthiness of extras
(line 196), compute no_main from the truthiness of extras.get("no_main")
(lines 197-199), and construct a ProjectTemplate passing no_main as a
keyword argument (lines 200-207). The construction is guarded by the
dataclass keyword check; since ProjectTemplate declares no no_main field the
guard fails and the construction raises a TypeError. -/
def main_parse_template_data :
    List (String × RawTemplateBody) →
      Except PyError (List (String × ProjectTemplate))
  | [] => .ok []
  | (name, data) :: rest => do
    let packages ← data.packages.mapM mkPackage
    let extras := data.extras
    let pyproject_extras : Option Json :=
      if !extras.isEmpty then List.lookup "pyproject_extras" extras else none
    let _no_main : String :=
      if (List.lookup "no_main" extras).elim false Json.truthy then "--bare"
      else ""
    if acceptsKwargs projectTemplate_fields main_parse_ctor_kwargs then do
      let restParsed ← main_parse_template_data rest
      .ok ((name,
        { name := name, packages := packages, description := data.description,
          extras := extras, pyproject_extras := pyproject_extras })
        :: restParsed)
    else
      .error (.typeError "unexpected keyword argument no_main")

/-- MainWindow._parse_template_data of src/NewVersion.py lines 278-290: same
package parsing, but pyproject_extras is read from the top level of the body
(data.get("pyproject_extras")), no no_main is computed, and the keyword
arguments all name declared fields of that file's ProjectTemplate dataclass
(src/NewVersion.py lines 57-65), so construction succeeds. -/
def nv_parse_template_data :
    List (String × RawTemplateBody) →
      Except PyError (List (String × ProjectTemplate))
  | [] => .ok []
  | (name, data) :: rest => do
    let packages ← data.packages.mapM mkPackage
    let restParsed ← nv_parse_template_data rest
    .ok ((name,
      { name := name, packages := packages, description := data.description,
        extras := data.extras, pyproject_extras := data.pyproject_extras })
      :: restParsed)

/-! ## Configuration loaders
(src/main.py lines 128-152, src/NewVersion.py lines 258-276) -/

/-- Outcome of reading and JSON-decoding the configuration source: the source
is missing, the document is not valid JSON (with the decoder's message), or
the decoded mapping in the documented shape. -/
inductive ReadResult where
  | missing : ReadResult
  | invalid (msg : String) : ReadResult
  | ok (raw : List (String × RawTemplateBody)) : ReadResult

/-- Message text of a PyError, as interpolated into log output. -/
def pyErrorMessage : PyError → String
  | .nameError n => "name " ++ n ++ " is not defined"
  | .fileNotFoundError m => m
  | .jsonDecodeError m => m
  | .typeError m => m
  | .indexError m => m

/-- Observable outcome of MainWindow.load_json_config of src/main.py: what
propagates to the caller, what was printed, and the resulting template_data
(initialised to the empty dict in __init__, src/main.py line 46). -/
structure MainLoadResult where
  raised : Option PyError
  printed : Option String
  template_data : List (String × ProjectTemplate)

/-- MainWindow.load_json_config (src/main.py lines 128-152): a missing or
unopenable source raises an IOError, an undecodable document raises a
JSONDecodeError, and parsing may raise; every one of these is caught by the
blanket `except Exception` handler (lines 150-152), which prints
"Failed to load config: ..." and returns normally, leaving template_data as
the empty dict. Nothing is ever re-raised to the caller. -/
def main_load_json_config : ReadResult → MainLoadResult
  | .missing =>
    { raised := none,
      printed := some "Failed to load config: Could not open PyProject.json",
      template_data := [] }
  | .invalid msg =>
    { raised := none,
      printed := some ("Failed to load config: " ++ msg),
      template_data := [] }
  | .ok raw =>
    match main_parse_template_data raw with
    | .error e =>
      { raised := none,
        printed := some ("Failed to load config: " ++ pyErrorMessage e),
        template_data := [] }
    | .ok ts =>
      { raised := none, printed := none, template_data := ts }

/-- Outcome of MainWindow.load_json_config of src/NewVersion.py: either an
exception propagates to the caller or the parsed templates are installed. -/
inductive NVLoadOutcome where
  | raised (e : PyError) : NVLoadOutcome
  | returned (template_data : List (String × ProjectTemplate)) : NVLoadOutcome

/-- MainWindow.load_json_config of src/NewVersion.py lines 258-276: a missing
file raises FileNotFoundError which is logged and re-raised (lines 271-273),
an undecodable document raises json.JSONDecodeError which is logged and
re-raised (lines 274-276), and a parse error (not one of the two handled
classes) propagates uncaught. Only a fully parsed document returns
normally. -/
def newversion_load_json_config : ReadResult → NVLoadOutcome
  | .missing => .raised (.fileNotFoundError "Configuration file not found")
  | .invalid msg => .raised (.jsonDecodeError msg)
  | .ok raw =>
    match nv_parse_template_data raw with
    | .error e => .raised e
    | .ok ts => .returned ts

/-! ## AppConfig (src/AppConfig.py) -/

/-- AppConfig dataclass fields and defaults (src/AppConfig.py lines 4-13). -/
structure AppConfig where
  config_file : String := "PyProject.json"
  ui_file : String := "MainDialog.ui"
  default_columns : Nat := 5
  default_python_version : String := "3.13.2"
  window_title : String := "PyProject"
  window_size : Nat × Nat := (1024, 720)

/-- The global names bound in the module src/AppConfig.py: its single import
(`from dataclasses import dataclass`, line 1) and the class it defines.
Neither json nor logger is ever bound there. -/
def appConfig_module_globals : List String := ["dataclass", "AppConfig"]

/-- Name resolution in src/AppConfig.py: looking up a name that is neither a
module global nor touched by an import raises a NameError (builtins such as
open and FileNotFoundError resolve and are not modelled here). -/
def resolveModuleName (n : String) : Except PyError Unit :=
  if appConfig_module_globals.contains n then .ok ()
  else .error (.nameError n)

/-- AppConfig.from_file (src/AppConfig.py lines 15-24). When the file exists,
`open` succeeds and the next evaluation is `json.load(f)`, which must first
resolve the global name json; NameError is not a FileNotFoundError, so it
propagates out of the try block. When the file is missing, `open` raises
FileNotFoundError, the handler runs `logger.warning(...)`, which must first
resolve the global name logger, and that NameError propagates. The
continuations after a successful resolution (the load result and the default
construction) are never reached because neither name ever resolves. -/
def AppConfig.from_file (fileExists : Bool) : Except PyError AppConfig :=
  if fileExists then do
    resolveModuleName "json"
    .ok {}
  else do
    resolveModuleName "logger"
    .ok {}

/-! ## Concrete fixtures used by closed witnesses and counterexamples -/

/-- A command generator whose external tool path is "uv". -/
def genW : CommandGenerator := ⟨"uv"⟩

/-- A concrete resolved project configuration. -/
def configW : ProjectConfig :=
  { project_path := "/tmp/proj/myapp", project_name := "myapp",
    python_version := "3.12", vcs_option := "--vcs git", no_readme := "",
    no_workspace := "", gen_type := "--app" }

/-- A concrete enabled package carrying a version constraint. -/
def packageW : Package := ⟨"flask", "enabled", some ">=2.0"⟩

/-- A concrete enabled extras entry (status set to the raw string, as
MainWindow._get_enabled_extras does at src/main.py line 312). -/
def extraW : Extras := ⟨"a.py", "b.py", .str "enabled"⟩

/-- An environment in which the command at index 0 succeeds and every later
command exits with status 1. -/
def execW : Nat → String → CmdResult := fun i _ =>
  if i == 0 then .success "out" "" else .failure 1 "boom" "err"

/-- An environment in which every command succeeds with stdout "done". -/
def execAllOk : Nat → String → CmdResult := fun _ _ => .success "done" ""

/-- A progress callback that signals cancellation at every call by returning
False. -/
def cancelCb : Nat → String → Bool := fun _ _ => false

/-- A raw configuration mapping with one well-formed template entry, in the
shape documented by the parser's docstring. -/
def c3_failing_raw : List (String × RawTemplateBody) :=
  [("web",
    { packages := [["flask", "enabled", ">=2.0"], ["pytest", "disabled"]],
      description := ["A web app"] })]

/-! ## Helper lemmas -/

/-- A for-loop that appends `f x` for each `x` passing the guard `p` equals
appending the filtered-and-mapped list. -/
theorem foldl_guard_append {α β : Type} (f : α → β) (p : α → Bool) :
    ∀ (xs : List α) (acc : List β),
      xs.foldl (fun a x => if p x then a ++ [f x] else a) acc
        = acc ++ (xs.filter p).map f := by
  intro xs
  induction xs with
  | nil => intro acc; simp
  | cons x xs ih =>
    intro acc
    by_cases h : p x
    · simp [List.foldl_cons, h, ih, List.filter_cons, List.append_assoc]
    · simp [List.foldl_cons, h, ih, List.filter_cons]

/-- Structure of the generated command list: the init command followed by the
add commands followed by the copy commands. -/
theorem generate_all_commands_eq (g : CommandGenerator) (c : ProjectConfig)
    (pkgs : List Package) (extras : List Extras) :
    g.generate_all_commands c pkgs extras
      = g.generate_init_command c
          :: (addCommands g c pkgs ++ copyCommands g c extras) := by
  simp only [CommandGenerator.generate_all_commands]
  rw [foldl_guard_append, foldl_guard_append]
  simp [addCommands, copyCommands]

/-- The loop returns True exactly when every command in the list exits
successfully. -/
theorem createProjectLoop_success (exec : Nat → String → CmdResult)
    (cb : Option (Nat → String → Bool)) :
    ∀ (idx : Nat) (cmds : List String),
      (createProjectLoop exec cb idx cmds).success = cmdsAllSucceed exec idx cmds := by
  intro idx cmds
  induction cmds generalizing idx with
  | nil => rfl
  | cons cmd rest ih =>
    simp only [createProjectLoop, cmdsAllSucceed]
    cases h : exec idx cmd with
    | success out err => simp [CmdResult.isSuccess, ih]
    | failure code out err => simp [CmdResult.isSuccess]

/-- If every command before position `good.length` succeeds and the command
at that position fails, the loop stops there: it returns False, executes
exactly the commands up to and including the failing one, and the trace ends
with the failure messages of the failing command. -/
theorem createProjectLoop_stops (exec : Nat → String → CmdResult)
    (cb : Option (Nat → String → Bool)) :
    ∀ (good : List String) (idx : Nat) (bad : String) (rest : List String)
      (code : Int) (out err : String),
      cmdsAllSucceed exec idx good = true →
      exec (idx + good.length) bad = .failure code out err →
      ∃ pre,
        createProjectLoop exec cb idx (good ++ bad :: rest)
          = ⟨false,
              pre ++ failureEntries cb.isSome (idx + good.length) bad code out err,
              List.range' idx (good.length + 1)⟩ := by
  intro good
  induction good with
  | nil =>
    intro idx bad rest code out err _ hbad
    refine ⟨announceEntries cb.isSome idx bad, ?_⟩
    simp only [List.nil_append, createProjectLoop]
    rw [show idx + List.length [] = idx by simp] at hbad
    rw [hbad]
    simp [List.range'_one]
  | cons c g ih =>
    intro idx bad rest code out err hgood hbad
    simp only [cmdsAllSucceed, Bool.and_eq_true] at hgood
    obtain ⟨hc, hg⟩ := hgood
    obtain ⟨o, e, heq⟩ : ∃ o e, exec idx c = .success o e := by
      cases h : exec idx c with
      | success o e => exact ⟨o, e, rfl⟩
      | failure _ _ _ => rw [h] at hc; simp [CmdResult.isSuccess] at hc
    have hlen : idx + 1 + g.length = idx + (c :: g).length := by
      simp only [List.length_cons]
      omega
    have hbad2 : exec (idx + 1 + g.length) bad = CmdResult.failure code out err := by
      rw [hlen]
      exact hbad
    obtain ⟨pre, hpre⟩ := ih (idx + 1) bad rest code out err hg hbad2
    refine ⟨announceEntries cb.isSome idx c ++ successEntries cb.isSome idx o e ++ pre, ?_⟩
    rw [List.cons_append]
    simp only [createProjectLoop, heq]
    rw [hpre, RunResult.mk.injEq]
    refine ⟨rfl, ?_, ?_⟩
    · rw [← hlen]
      simp [List.append_assoc]
    · simp [List.range'_succ]

/-! ## Claim theorems -/

/-- Claim C5: for every project config, package list and extras list, the
length of the list returned by generate_all_commands equals 1 plus the
number of packages whose status is enabled plus the number of extras whose
status is enabled. -/
theorem c5_command_count (g : CommandGenerator) (c : ProjectConfig)
    (pkgs : List Package) (extras : List Extras) :
    (g.generate_all_commands c pkgs extras).length
      = 1 + pkgs.countP Package.is_enabled + extras.countP Extras.is_enabled := by
  rw [generate_all_commands_eq]
  simp [addCommands, copyCommands, List.countP_eq_length_filter]
  omega

/-- Claim C6: the list returned by generate_all_commands has the init command
at index 0, then one add command per enabled package in input order, then one
copy command per enabled extras entry in input order, and every add command
precedes every copy command (position 1 + i of the i-th add command is below
position 1 + number of add commands + j of the j-th copy command). -/
theorem c6_command_ordering (g : CommandGenerator) (c : ProjectConfig)
    (pkgs : List Package) (extras : List Extras) :
    (g.generate_all_commands c pkgs extras).get? 0
        = some (g.generate_init_command c)
    ∧ g.generate_all_commands c pkgs extras
        = g.generate_init_command c
            :: (addCommands g c pkgs ++ copyCommands g c extras)
    ∧ ∀ i j, i < (addCommands g c pkgs).length →
        j < (copyCommands g c extras).length →
        (g.generate_all_commands c pkgs extras).get? (1 + i)
            = (addCommands g c pkgs).get? i
        ∧ (g.generate_all_commands c pkgs extras).get?
              (1 + (addCommands g c pkgs).length + j)
            = (copyCommands g c extras).get? j
        ∧ 1 + i < 1 + (addCommands g c pkgs).length + j := by
  have h := generate_all_commands_eq g c pkgs extras
  refine ⟨by rw [h]; rfl, h, ?_⟩
  intro i j hi hj
  rw [h]
  refine ⟨?_, ?_, by omega⟩
  · rw [show 1 + i = i + 1 by omega, List.get?_cons_succ,
      List.get?_append hi]
  · rw [show 1 + (addCommands g c pkgs).length + j
        = ((addCommands g c pkgs).length + j) + 1 by omega,
      List.get?_cons_succ,
      List.get?_append_right (by omega)]
    congr 1
    omega

/-- Claim C6 witness: the ordering facts instantiated on a concrete
generator, config, one enabled package and one enabled extras entry. -/
theorem c6_command_ordering_witness :
    (genW.generate_all_commands configW [packageW] [extraW]).get? (1 + 0)
        = (addCommands genW configW [packageW]).get? 0
    ∧ 1 + 0 < 1 + (addCommands genW configW [packageW]).length + 0 := by
  have h := (c6_command_ordering genW configW [packageW] [extraW]).2.2 0 0
    (by decide) (by decide)
  exact ⟨h.1, h.2.2⟩

/-- Claim C7 counterexample: a package whose version field holds the empty
string has a version string present, yet the generated add command is the
bare, unquoted name — the Python guard `if package.version:` tests
truthiness, and the empty string is falsy. -/
theorem c7_counterexample :
    CommandGenerator.generate_add_command ⟨"uv"⟩ ⟨"flask", "enabled", some ""⟩
        "/tmp/proj/myapp"
      = "uv add flask --project /tmp/proj/myapp"
    ∧ CommandGenerator.generate_add_command ⟨"uv"⟩ ⟨"flask", "enabled", some ""⟩
        "/tmp/proj/myapp"
      ≠ "uv add \x27flask\x27 --project /tmp/proj/myapp" := by
  exact ⟨rfl, by decide⟩

/-- Claim C7 as amended: for every package with a present and non-empty
version string, the add command passes the name concatenated with the
version, with no separator, as a single single-quoted argument; for every
package with no version or an empty version string, the add command contains
the bare, unquoted package name. -/
theorem c7_amended_quoting (g : CommandGenerator) (p : Package)
    (path : String) :
    (∀ v, p.version = some v → v ≠ "" →
      p.version_spec = p.name ++ v
      ∧ g.generate_add_command p path
          = g.uv_executable ++ " add \x27" ++ (p.name ++ v)
              ++ "\x27 --project " ++ path)
    ∧ (p.version = none →
        g.generate_add_command p path
          = g.uv_executable ++ " add " ++ p.name ++ " --project " ++ path)
    ∧ (p.version = some "" →
        g.generate_add_command p path
          = g.uv_executable ++ " add " ++ p.name ++ " --project " ++ path) := by
  refine ⟨?_, ?_, ?_⟩
  · intro v hv hne
    constructor
    · simp [Package.version_spec, hv, hne]
    · simp [CommandGenerator.generate_add_command, strOptTruthy, hv, hne,
        Package.version_spec]
  · intro hv
    simp [CommandGenerator.generate_add_command, strOptTruthy, hv]
  · intro hv
    simp [CommandGenerator.generate_add_command, strOptTruthy, hv]

/-- Claim C7 witness: the amended statement instantiated on the package
flask with version >=2.0, yielding the dependency token flask>=2.0 inside
the quotes. -/
theorem c7_amended_quoting_witness :
    Package.version_spec ⟨"flask", "enabled", some ">=2.0"⟩
        = "flask" ++ ">=2.0"
    ∧ CommandGenerator.generate_add_command ⟨"uv"⟩
          ⟨"flask", "enabled", some ">=2.0"⟩ "/tmp/proj/myapp"
        = "uv" ++ " add \x27" ++ ("flask" ++ ">=2.0") ++ "\x27 --project "
            ++ "/tmp/proj/myapp" := by
  have h := (c7_amended_quoting ⟨"uv"⟩ ⟨"flask", "enabled", some ">=2.0"⟩
    "/tmp/proj/myapp").1 ">=2.0" rfl (by decide)
  exact ⟨h.1, h.2⟩

/-- Claim C8: the command loop of create_project returns True exactly when
every command exits successfully; when the commands before position k all
succeed and the command at position k exits non-zero, the loop returns
False, executes exactly the commands at positions 0..k and no later one,
and its progress-callback trace ends with the forwarded error message and
the captured stdout/stderr of the failing command. -/
theorem c8_stop_on_first_failure :
    (∀ (exec : Nat → String → CmdResult) (cb : Option (Nat → String → Bool))
        (commands : List String),
      (create_project_run exec cb commands).success = true
        ↔ cmdsAllSucceed exec 0 commands = true)
    ∧ ∀ (exec : Nat → String → CmdResult) (cb : Option (Nat → String → Bool))
        (good : List String) (bad : String) (rest : List String)
        (code : Int) (out err : String),
      cmdsAllSucceed exec 0 good = true →
      exec good.length bad = .failure code out err →
      (create_project_run exec cb (good ++ bad :: rest)).success = false
      ∧ (create_project_run exec cb (good ++ bad :: rest)).executed
          = List.range (good.length + 1)
      ∧ ∃ pre, (create_project_run exec cb (good ++ bad :: rest)).trace
          = pre ++ failureEntries cb.isSome good.length bad code out err := by
  constructor
  · intro exec cb commands
    rw [create_project_run, createProjectLoop_success]
  · intro exec cb good bad rest code out err hgood hbad
    have hb0 : exec (0 + good.length) bad = CmdResult.failure code out err := by
      simpa using hbad
    obtain ⟨pre, hpre⟩ :=
      createProjectLoop_stops exec cb good 0 bad rest code out err hgood hb0
    rw [create_project_run, hpre]
    refine ⟨rfl, by simp [List.range_eq_range'], ⟨pre, by simp⟩⟩

/-- Claim C8 witness: in an environment where the first command succeeds and
the second fails, the run on a two-command list returns False and executes
exactly the first two positions. -/
theorem c8_stop_on_first_failure_witness :
    (create_project_run execW none ["cmd_a", "cmd_b"]).success = false
    ∧ (create_project_run execW none ["cmd_a", "cmd_b"]).executed
        = List.range 2 := by
  have h := c8_stop_on_first_failure.2 execW none ["cmd_a"] "cmd_b" [] 1
    "boom" "err" (by decide) (by decide)
  exact ⟨h.1, h.2.1⟩

/-- Claim C10: Extras.is_enabled is true exactly when the status field holds
the raw string "enabled"; an Extras whose status is an ExtrasStatus enum
member — the default DISABLED and even ENABLED — is reported as not enabled,
and generate_all_commands emits no copy command for it (the command list is
the one generated with no extras at all). -/
theorem c10_extras_enum_status :
    (∀ e : Extras, e.is_enabled = true ↔ e.status = .str "enabled")
    ∧ (∀ e : Extras, (∃ m, e.status = .enum m) → e.is_enabled = false)
    ∧ ∀ (g : CommandGenerator) (c : ProjectConfig) (pkgs : List Package)
        (e : Extras) (m : ExtrasStatus),
      e.status = .enum m →
      g.generate_all_commands c pkgs [e] = g.generate_all_commands c pkgs [] := by
  refine ⟨?_, ?_, ?_⟩
  · intro e
    cases he : e.status with
    | str s => simp [Extras.is_enabled, he]
    | enum m => simp [Extras.is_enabled, he]
  · intro e hm
    obtain ⟨m, hm⟩ := hm
    simp [Extras.is_enabled, hm]
  · intro g c pkgs e m hm
    rw [generate_all_commands_eq, generate_all_commands_eq]
    have he : e.is_enabled = false := by simp [Extras.is_enabled, hm]
    simp [copyCommands, List.filter_cons, he]

/-- Claim C10 witness: an Extras built with ExtrasStatus.ENABLED is not
enabled, and generating with it alone yields the same commands as with no
extras. -/
theorem c10_extras_enum_status_witness :
    Extras.is_enabled ⟨"a.py", "b.py", .enum .ENABLED⟩ = false
    ∧ genW.generate_all_commands configW [] [⟨"a.py", "b.py", .enum .ENABLED⟩]
        = genW.generate_all_commands configW [] [] := by
  refine ⟨c10_extras_enum_status.2.1 ⟨"a.py", "b.py", .enum .ENABLED⟩
      ⟨.ENABLED, rfl⟩,
    c10_extras_enum_status.2.2 genW configW [] ⟨"a.py", "b.py", .enum .ENABLED⟩
      .ENABLED rfl⟩

/-- Claim C1, evaluation at the failing input: with a progress callback that
returns False at every call (cancellation requested before the first
command), an environment where both commands succeed, and a two-command
list, the create_project loop still executes both commands and returns True:
src/ProjectManager.py lines 28-29 invoke the callback as a bare statement
and discard its Boolean result, so a False return aborts nothing. -/
theorem c1_callback_return_ignored :
    create_project_run execAllOk (some cancelCb) ["cmd_a", "cmd_b"]
      = ⟨true,
          [(0, "Executing: cmd_a"), (0, "done"),
           (1, "Executing: cmd_b"), (1, "done")],
          [0, 1]⟩ := by
  rfl

/-- Claim C2, evaluation at the failing input: the four-argument call of
create_project at src/main.py line 247 exceeds the three parameters of
ProjectManager.create_project, and create_project itself supplies only two
of the three required parameters of generate_all_commands
(src/ProjectManager.py line 25); both calls raise a TypeError, while the
dry-run call at src/main.py line 358 binds cleanly. The create path can
therefore never obtain the three-input command list the dry run renders. -/
theorem c2_create_call_arity :
    acceptsArgs create_project_sig main_create_project_call_argc = false
    ∧ acceptsArgs generate_all_commands_sig create_project_generate_call_argc
        = false
    ∧ acceptsArgs generate_all_commands_sig main_dry_run_generate_call_argc
        = true := by
  decide

/-- Claim C3, evaluation at the failing input: on a raw mapping with one
well-formed template entry, the parser of src/main.py raises a TypeError,
because it passes the keyword argument no_main (src/main.py lines 197-207)
and the ProjectTemplate dataclass of src/ProjectTemplate.py declares no such
field. -/
theorem c3_parse_raises_on_no_main :
    main_parse_template_data c3_failing_raw
      = .error (.typeError "unexpected keyword argument no_main")
    ∧ acceptsKwargs projectTemplate_fields main_parse_ctor_kwargs = false := by
  exact ⟨rfl, by decide⟩

/-- Claim C4 counterexample: for a missing configuration source, the loader
of src/main.py raises nothing to its caller — the error is caught by the
blanket handler and only printed — and the template set is left empty, so
the missing-source error is not surfaced as the claim states. -/
theorem c4_counterexample :
    (main_load_json_config ReadResult.missing).raised = none
    ∧ (main_load_json_config ReadResult.missing).printed
        = some "Failed to load config: Could not open PyProject.json"
    ∧ (main_load_json_config ReadResult.missing).template_data = [] := by
  exact ⟨rfl, rfl, rfl⟩

/-- Claim C4 as amended: the NewVersion loader surfaces both errors to the
caller — a missing source raises the not-found error and an invalid document
raises the decode error with its message; the loader of src/main.py never
raises to its caller, and on every failing load its only recovery is the
empty template set. -/
theorem c4_amended_surfacing :
    newversion_load_json_config ReadResult.missing
        = .raised (.fileNotFoundError "Configuration file not found")
    ∧ (∀ msg, newversion_load_json_config (ReadResult.invalid msg)
        = .raised (.jsonDecodeError msg))
    ∧ (∀ r, (main_load_json_config r).raised = none)
    ∧ (main_load_json_config ReadResult.missing).template_data = []
    ∧ ∀ msg, (main_load_json_config (ReadResult.invalid msg)).template_data
        = [] := by
  refine ⟨rfl, fun msg => rfl, ?_, rfl, fun msg => rfl⟩
  intro r
  cases r with
  | missing => rfl
  | invalid msg => rfl
  | ok raw =>
    cases h : main_parse_template_data raw with
    | error e => simp [main_load_json_config, h]
    | ok ts => simp [main_load_json_config, h]

/-- Claim C9: AppConfig.from_file raises a NameError for every config_path:
with an existing file it fails resolving json at the structured-data load,
with a missing file it fails resolving logger while logging the fallback
warning, and it never returns any AppConfig. -/
theorem c9_from_file_raises_name_error :
    AppConfig.from_file true = .error (.nameError "json")
    ∧ AppConfig.from_file false = .error (.nameError "logger")
    ∧ ∀ (b : Bool) (c : AppConfig), AppConfig.from_file b ≠ .ok c := by
  refine ⟨rfl, rfl, ?_⟩
  intro b c
  cases b with
  | false =>
    rw [show AppConfig.from_file false = .error (.nameError "logger") from rfl]
    exact fun h => Except.noConfusion h
  | true =>
    rw [show AppConfig.from_file true = .error (.nameError "json") from rfl]
    exact fun h => Except.noConfusion h

end PyProject
